import Mathlib

/-!
Verification of the flow2api credential-pool orchestration engine.

Shallow embedding of the repository's Python sources:
  * `src/core/database.py`   — token stats counters, registry updates, proxy pool
  * `src/services/generation_handler.py` — generation state machine, poll loop
  * `src/services/file_cache.py` — URL-keyed result cache with TTL
  * `src/services/proxy_manager.py` — round-robin proxy rotation

Dates are modelled as strings (Python `str(date.today())`), timestamps as
natural numbers, and SQL `NULL` as `Option`.  The functions below mirror the
source line by line; components of the repository that are not present under
`src/` (the token manager's threshold-ban step and `ban_token_for_429`) are
modelled from the specification and marked as such in their doc comments.
-/

namespace Flow2API

/-- Per-token rolling counters, mirroring the `token_stats` table and the
`TokenStats` pydantic model (`src/core/models.py`). -/
structure TokenStats where
  token_id : Nat
  image_count : Nat
  video_count : Nat
  success_count : Nat
  error_count : Nat
  last_success_at : Option Nat
  last_error_at : Option Nat
  today_image_count : Nat
  today_video_count : Nat
  today_error_count : Nat
  today_date : Option String
  consecutive_error_count : Nat
deriving Repr, DecidableEq

/-- `Database.increment_image_count` (`src/core/database.py` 828-855):
bumps the lifetime image count, and bumps the today-scoped image count
unless the stored date differs from `today`, in which case that one
counter restarts at 1 and the stored date is replaced. -/
def increment_image_count (today : String) (s : TokenStats) : TokenStats :=
  if s.today_date ≠ some today then
    { s with image_count := s.image_count + 1,
             today_image_count := 1,
             today_date := some today }
  else
    { s with image_count := s.image_count + 1,
             today_image_count := s.today_image_count + 1,
             today_date := some today }

/-- `Database.increment_video_count` (`src/core/database.py` 857-884). -/
def increment_video_count (today : String) (s : TokenStats) : TokenStats :=
  if s.today_date ≠ some today then
    { s with video_count := s.video_count + 1,
             today_video_count := 1,
             today_date := some today }
  else
    { s with video_count := s.video_count + 1,
             today_video_count := s.today_video_count + 1,
             today_date := some today }

/-- `Database.increment_error_count` (`src/core/database.py` 886-923):
lifetime and consecutive error counts always go up by 1; the today-scoped
error count restarts at 1 on a date rollover.  `now` models
`CURRENT_TIMESTAMP` written to `last_error_at`. -/
def increment_error_count (today : String) (now : Nat) (s : TokenStats) : TokenStats :=
  if s.today_date ≠ some today then
    { s with error_count := s.error_count + 1,
             consecutive_error_count := s.consecutive_error_count + 1,
             today_error_count := 1,
             today_date := some today,
             last_error_at := some now }
  else
    { s with error_count := s.error_count + 1,
             consecutive_error_count := s.consecutive_error_count + 1,
             today_error_count := s.today_error_count + 1,
             today_date := some today,
             last_error_at := some now }

/-- `Database.reset_error_count` (`src/core/database.py` 925-938): the single
SQL statement `UPDATE token_stats SET consecutive_error_count = 0`. -/
def reset_error_count (s : TokenStats) : TokenStats :=
  { s with consecutive_error_count := 0 }

/-- The storage-layer operations of `database.py` that write a
`token_stats` row. -/
inductive StatsOp where
  | incImage (today : String)
  | incVideo (today : String)
  | incError (today : String) (now : Nat)
  | resetError
deriving Repr, DecidableEq

def StatsOp.apply : StatsOp → TokenStats → TokenStats
  | .incImage today => increment_image_count today
  | .incVideo today => increment_video_count today
  | .incError today now => increment_error_count today now
  | .resetError => reset_error_count

/-- Token registry row, mirroring the fields of the `Token` model
(`src/core/models.py`) that the health engine touches. -/
structure Token where
  id : Nat
  is_active : Bool
  image_enabled : Bool
  video_enabled : Bool
  use_count : Nat
  ban_reason : Option String
  banned_at : Option Nat
deriving Repr, DecidableEq

/-- Modelled from the spec: `token_manager.record_error` is not under `src/`
(only `database.py`'s counter step is).  Spec section 4.1: "recordError(tokenId):
increments lifetime error_count, consecutive_error_count, and today-scoped
error count (resetting the latter if the stored date has rolled over); if
consecutive_error_count reaches the configured ban threshold, sets
is_active = false."  The counter step is the source's
`increment_error_count`; the threshold-ban step follows the spec's words. -/
def record_error (threshold : Nat) (today : String) (now : Nat)
    (t : Token) (s : TokenStats) : Token × TokenStats :=
  let s2 := increment_error_count today now s
  if threshold ≤ s2.consecutive_error_count then
    ({ t with is_active := false }, s2)
  else
    (t, s2)

/-- Modelled from the spec: `token_manager.ban_token_for_429` is not under
`src/`.  Spec section 4.1: "banForRateLimit(tokenId): unconditionally sets
is_active = false with a distinguishing ban reason and timestamp, bypassing
the threshold entirely."  The reason string "429_rate_limit" is documented in
`src/core/models.py` line 42. -/
def ban_token_for_429 (now : Nat) (t : Token) : Token :=
  { t with is_active := false,
           ban_reason := some "429_rate_limit",
           banned_at := some now }

/-- C1 — `recordSuccess` (`Database.reset_error_count`) zeroes
`consecutive_error_count` whatever its prior value, leaves every other
`TokenStats` field unchanged, and no storage-layer stats operation ever
decreases the lifetime `error_count`. -/
theorem c1_reset_error_count (s : TokenStats) (op : StatsOp) :
    (reset_error_count s).consecutive_error_count = 0
    ∧ (reset_error_count s).error_count = s.error_count
    ∧ (reset_error_count s).image_count = s.image_count
    ∧ (reset_error_count s).video_count = s.video_count
    ∧ (reset_error_count s).success_count = s.success_count
    ∧ (reset_error_count s).today_image_count = s.today_image_count
    ∧ (reset_error_count s).today_video_count = s.today_video_count
    ∧ (reset_error_count s).today_error_count = s.today_error_count
    ∧ (reset_error_count s).today_date = s.today_date
    ∧ (reset_error_count s).last_success_at = s.last_success_at
    ∧ (reset_error_count s).last_error_at = s.last_error_at
    ∧ s.error_count ≤ (op.apply s).error_count := by
  refine ⟨rfl, rfl, rfl, rfl, rfl, rfl, rfl, rfl, rfl, rfl, rfl, ?_⟩
  cases op with
  | incImage today =>
      simp only [StatsOp.apply, increment_image_count]
      split <;> simp
  | incVideo today =>
      simp only [StatsOp.apply, increment_video_count]
      split <;> simp
  | incError today now =>
      simp only [StatsOp.apply, increment_error_count]
      split <;> simp
  | resetError =>
      simp [StatsOp.apply, reset_error_count]

/-- C2 — one `recordError` call bumps lifetime `error_count` and
`consecutive_error_count` by exactly 1, bumps `today_error_count` by 1 when
the stored date equals the current date and restarts it at 1 otherwise
(storing the current date either way), and bans the owning token exactly
when the resulting consecutive count reaches the configured threshold. -/
theorem c2_record_error (threshold : Nat) (today : String) (now : Nat)
    (t : Token) (s : TokenStats) :
    (record_error threshold today now t s).2.error_count = s.error_count + 1
    ∧ (record_error threshold today now t s).2.consecutive_error_count
        = s.consecutive_error_count + 1
    ∧ (record_error threshold today now t s).2.today_error_count
        = (if s.today_date = some today then s.today_error_count + 1 else 1)
    ∧ (record_error threshold today now t s).2.today_date = some today
    ∧ (record_error threshold today now t s).1.is_active
        = (if threshold ≤ (record_error threshold today now t s).2.consecutive_error_count
            then false else t.is_active) := by
  by_cases h : s.today_date = some today <;>
    by_cases h2 : threshold ≤ s.consecutive_error_count + 1 <;>
      simp [record_error, increment_error_count, h, h2]

/-- C5 counterexample — the claim "whenever the stored today_date differs
from the current date, the next counter-updating operation resets the
today-scoped counters for the new day rather than continuing to add to the
previous day's values" is false on the code: with the stored date at
2026-10-11 and `today_video_count = 5`, an `increment_image_count` on
2026-10-12 stores the new date but leaves `today_video_count` at 5, and a
subsequent `increment_video_count` on 2026-10-12 continues to 6 instead of
restarting the video counter for the new day. -/
theorem c5_counterexample :
    let s0 : TokenStats :=
      { token_id := 1, image_count := 10, video_count := 20, success_count := 0,
        error_count := 2, last_success_at := none, last_error_at := none,
        today_image_count := 3, today_video_count := 5, today_error_count := 2,
        today_date := some "2026-10-11", consecutive_error_count := 0 }
    let s1 := increment_image_count "2026-10-12" s0
    s0.today_date ≠ some "2026-10-12"
    ∧ s1.today_date = some "2026-10-12"
    ∧ s1.today_video_count = 5
    ∧ (increment_video_count "2026-10-12" s1).today_video_count = 6 := by
  decide

/-- C5 amended — whenever the stored `today_date` differs from the current
date, the next counter-updating operation resets only its *own* today-scoped
counter to 1 and stores the current date; the other two today-scoped
counters are left unchanged (so a later same-day update of them continues
from the stale previous-day value). -/
theorem c5_daily_reset_per_counter (s : TokenStats) (today : String) (now : Nat)
    (h : s.today_date ≠ some today) :
    ((increment_image_count today s).today_image_count = 1
      ∧ (increment_image_count today s).today_date = some today
      ∧ (increment_image_count today s).today_video_count = s.today_video_count
      ∧ (increment_image_count today s).today_error_count = s.today_error_count)
    ∧ ((increment_video_count today s).today_video_count = 1
      ∧ (increment_video_count today s).today_date = some today
      ∧ (increment_video_count today s).today_image_count = s.today_image_count
      ∧ (increment_video_count today s).today_error_count = s.today_error_count)
    ∧ ((increment_error_count today now s).today_error_count = 1
      ∧ (increment_error_count today now s).today_date = some today
      ∧ (increment_error_count today now s).today_image_count = s.today_image_count
      ∧ (increment_error_count today now s).today_video_count = s.today_video_count) := by
  simp [increment_image_count, increment_video_count, increment_error_count, h]

/-- Witness for `c5_daily_reset_per_counter` at a concrete stats row whose
stored date 2026-10-11 differs from the current date 2026-10-12. -/
theorem c5_daily_reset_per_counter_witness :
    let s0 : TokenStats :=
      { token_id := 1, image_count := 10, video_count := 20, success_count := 0,
        error_count := 2, last_success_at := none, last_error_at := none,
        today_image_count := 3, today_video_count := 5, today_error_count := 2,
        today_date := some "2026-10-11", consecutive_error_count := 0 }
    (increment_image_count "2026-10-12" s0).today_image_count = 1
    ∧ (increment_video_count "2026-10-12" s0).today_video_count = 1
    ∧ (increment_error_count "2026-10-12" 99 s0).today_error_count = 1 := by
  have h := c5_daily_reset_per_counter
    { token_id := 1, image_count := 10, video_count := 20, success_count := 0,
      error_count := 2, last_success_at := none, last_error_at := none,
      today_image_count := 3, today_video_count := 5, today_error_count := 2,
      today_date := some "2026-10-11", consecutive_error_count := 0 }
    "2026-10-12" 99 (by decide)
  exact ⟨h.1.1, h.2.1.1, h.2.2.1⟩

/-! ### Registry update operations (`Database.update_token`, `Database.update_task`)

Both build an `UPDATE ... SET` list from their keyword arguments, skipping
every argument whose value is `None`; when the list is empty no statement is
executed.  A row is modelled as a map from column name to an optional value
(`none` = SQL NULL); `update_task` additionally converts a `result_urls`
list value to its JSON text before storing it. -/

/-- A column value: either plain text or a list of strings (the
`result_urls` argument of `update_task` before JSON conversion). -/
inductive ColValue where
  | text (s : String)
  | strList (l : List String)
deriving Repr, DecidableEq

/-- Python `json.dumps` on a list of strings, used only to show the
`result_urls` conversion keeps the skip-None logic intact (string-escape
subtleties are irrelevant to the claims). -/
def jsonListDump (l : List String) : String :=
  "[" ++ String.intercalate ", " (l.map (fun s => "\x22" ++ s ++ "\x22")) ++ "]"

/-- The per-argument value conversion of `Database.update_task`
(`src/core/database.py` 788-806): a list supplied for `result_urls` is
stored as its JSON text; everything else is stored as given. -/
def taskConv (key : String) (v : ColValue) : ColValue :=
  match key, v with
  | "result_urls", .strList l => .text (jsonListDump l)
  | _, v => v

/-- The `updates`/`params` accumulation loop shared by `Database.update_token`
and `Database.update_task`: keyword arguments with value `None` are skipped,
the rest become `SET key = value` pairs (after `conv`). -/
def buildUpdates (conv : String → ColValue → ColValue)
    (kwargs : List (String × Option ColValue)) : List (String × ColValue) :=
  kwargs.filterMap (fun kv =>
    match kv.2 with
    | none => none
    | some v => some (kv.1, conv kv.1 v))

/-- Applying the resulting `UPDATE` statement to a row (map from column name
to nullable value): each `SET key = value` pair overwrites that column. -/
def applySets (row : String → Option ColValue) :
    List (String × ColValue) → String → Option ColValue
  | [], col => row col
  | (k, v) :: rest, col =>
      if col = k then some v else applySets row rest col

/-- `Database.update_token` (`src/core/database.py` 698-713) as a row
transformer: no value conversion, None-valued arguments skipped. -/
def update_token (row : String → Option ColValue)
    (kwargs : List (String × Option ColValue)) : String → Option ColValue :=
  applySets row (buildUpdates (fun _ v => v) kwargs)

/-- `Database.update_task` (`src/core/database.py` 788-806) as a row
transformer: `result_urls` lists are JSON-converted, None-valued arguments
skipped. -/
def update_task (row : String → Option ColValue)
    (kwargs : List (String × Option ColValue)) : String → Option ColValue :=
  applySets row (buildUpdates taskConv kwargs)

theorem applySets_of_not_mem (row : String → Option ColValue)
    (sets : List (String × ColValue)) (col : String)
    (h : ∀ p ∈ sets, p.1 ≠ col) : applySets row sets col = row col := by
  induction sets with
  | nil => rfl
  | cons p rest ih =>
      have hp : p.1 ≠ col := h p (by simp)
      simp only [applySets]
      rw [if_neg (fun hc => hp hc.symm)]
      exact ih (fun q hq => h q (by simp [hq]))

theorem applySets_ne_none (row : String → Option ColValue)
    (sets : List (String × ColValue)) (col : String)
    (h : applySets row sets col = none) : row col = none := by
  induction sets with
  | nil => exact h
  | cons p rest ih =>
      by_cases hc : col = p.1
      · simp [applySets, hc] at h
      · simp only [applySets, if_neg hc] at h
        exact ih h

/-- C10 — for `Database.update_token` and `Database.update_task`, a keyword
argument whose value is None is skipped, so (i) a column for which every
supplied value is None keeps its prior value, (ii) no call can set a column
back to NULL (a NULL result means the column already was NULL), and (iii) a
call in which every supplied value is None leaves the row unchanged. -/
theorem c10_update_skips_none (row : String → Option ColValue)
    (kwargs : List (String × Option ColValue)) (col : String) :
    ((∀ p ∈ kwargs, p.1 = col → p.2 = none) →
        update_token row kwargs col = row col
        ∧ update_task row kwargs col = row col)
    ∧ (update_token row kwargs col = none → row col = none)
    ∧ (update_task row kwargs col = none → row col = none)
    ∧ ((∀ p ∈ kwargs, p.2 = none) →
        update_token row kwargs = row ∧ update_task row kwargs = row) := by
  have hskip : ∀ (conv : String → ColValue → ColValue),
      (∀ p ∈ kwargs, p.1 = col → p.2 = none) →
      applySets row (buildUpdates conv kwargs) col = row col := by
    intro conv hnone
    refine applySets_of_not_mem row _ col ?_
    intro p hp hcol
    simp only [buildUpdates, List.mem_filterMap] at hp
    obtain ⟨kv, hkv, heq⟩ := hp
    cases hv : kv.2 with
    | none => simp [hv] at heq
    | some v =>
        simp only [hv] at heq
        have h1 : kv.1 = p.1 := by
          cases heq; rfl
        have := hnone kv hkv (h1.trans hcol)
        simp [hv] at this
  have hempty : ∀ (conv : String → ColValue → ColValue),
      (∀ p ∈ kwargs, p.2 = none) → buildUpdates conv kwargs = [] := by
    intro conv hnone
    simp only [buildUpdates, List.filterMap_eq_nil_iff]
    intro kv hkv
    simp [hnone kv hkv]
  refine ⟨fun h => ⟨hskip _ h, hskip _ h⟩,
          fun h => applySets_ne_none row _ col h,
          fun h => applySets_ne_none row _ col h,
          fun h => ⟨?_, ?_⟩⟩
  · funext c
    simp [update_token, hempty _ h, applySets]
  · funext c
    simp [update_task, hempty _ h, applySets]

/-- Witness for `c10_update_skips_none`: a concrete task row updated with
`status = None`, `error_message = None` keeps its `status` column. -/
theorem c10_update_skips_none_witness :
    let row : String → Option ColValue := fun col =>
      if col = "status" then some (.text "processing") else none
    let kwargs : List (String × Option ColValue) :=
      [("status", none), ("error_message", none)]
    update_token row kwargs "status" = some (.text "processing")
    ∧ update_task row kwargs "status" = some (.text "processing") := by
  have h := (c10_update_skips_none
    (fun col => if col = "status" then some (.text "processing") else none)
    [("status", none), ("error_message", none)] "status").1 (by decide)
  exact ⟨h.1, h.2⟩

/-! ### Result cache (`src/services/file_cache.py`)

`hashlib.md5(...).hexdigest()` is Python standard-library code, not code of
this repository; it is modelled as an arbitrary digest function
`String → String` supplied to the definitions, so every theorem below holds
for the real digest as well.  The filesystem is modelled by whether the
cache file exists and by its modification time. -/

/-- `FileCache._generate_cache_filename` (`src/services/file_cache.py`
89-102): digest of the source URL plus a media-type extension. -/
def generate_cache_filename (digest : String → String)
    (url media_type : String) : String :=
  digest url ++
    (if media_type = "video" then ".mp4"
     else if media_type = "image" then ".jpg"
     else "")

/-- Outcome of `FileCache.download_and_cache`'s cache check: either the
cached file is returned with no download, or a download runs (after removing
the stale file when one existed). -/
inductive CacheAction where
  | hit (filename : String)
  | download (filename : String) (removedStale : Bool)
deriving Repr, DecidableEq

/-- The cache-check logic of `FileCache.download_and_cache`
(`src/services/file_cache.py` 104-157): derive the filename from the URL;
if the file exists and `now - mtime < timeout`, return it (cache hit);
otherwise unlink any stale file and download the URL again. -/
def download_and_cache (digest : String → String) (url media_type : String)
    (fileExists : Bool) (mtime now timeout : Nat) : CacheAction :=
  let filename := generate_cache_filename digest url media_type
  if fileExists then
    if now - mtime < timeout then .hit filename
    else .download filename true
  else .download filename false

/-- C6 — the cache filename is derived deterministically from the source URL
(digest of the URL plus the media-type extension); an existing file whose age
is strictly under the timeout is returned with no download, and a file at or
over the timeout is removed and the URL downloaded again. -/
theorem c6_cache_hit_boundary (digest : String → String)
    (url media_type : String) (mtime now timeout : Nat) :
    generate_cache_filename digest url media_type
      = digest url ++
          (if media_type = "video" then ".mp4"
           else if media_type = "image" then ".jpg" else "")
    ∧ (now - mtime < timeout →
        download_and_cache digest url media_type true mtime now timeout
          = .hit (generate_cache_filename digest url media_type))
    ∧ (timeout ≤ now - mtime →
        download_and_cache digest url media_type true mtime now timeout
          = .download (generate_cache_filename digest url media_type) true) := by
  refine ⟨rfl, fun h => ?_, fun h => ?_⟩
  · simp [download_and_cache, h]
  · simp [download_and_cache, Nat.not_lt.mpr h]

/-- Witness for `c6_cache_hit_boundary`: with timeout 7200s a file of age
7199s is a cache hit and a file of age 7201s is re-downloaded. -/
theorem c6_cache_hit_boundary_witness :
    download_and_cache (fun _ => "d41d8") "u" "video" true 0 7199 7200
      = .hit (generate_cache_filename (fun _ => "d41d8") "u" "video")
    ∧ download_and_cache (fun _ => "d41d8") "u" "video" true 0 7201 7200
      = .download (generate_cache_filename (fun _ => "d41d8") "u" "video") true := by
  exact ⟨(c6_cache_hit_boundary (fun _ => "d41d8") "u" "video" 0 7199 7200).2.1 (by decide),
         (c6_cache_hit_boundary (fun _ => "d41d8") "u" "video" 0 7201 7200).2.2 (by decide)⟩

/-! ### Proxy rotator (`src/services/proxy_manager.py`, proxy-pool rows of
`src/core/database.py`)

`ProxyManager` holds the rotation cursor `_current_index` behind an
`asyncio.Lock`; each call reads the enabled pool rows from the database
(`SELECT * FROM proxy_pool WHERE enabled = 1 ORDER BY last_used_at ASC NULLS
FIRST`), indexes with `idx % len` and advances the cursor.  The SQL ordering
is modelled by a stable insertion sort on the nullable `last_used_at` key. -/

/-- A `proxy_pool` row (`ProxyPoolItem` in `src/core/models.py`). -/
structure ProxyPoolItem where
  id : Nat
  proxy_url : String
  name : Option String
  enabled : Bool
  success_count : Nat
  fail_count : Nat
  last_used_at : Option Nat
deriving Repr, DecidableEq

/-- `ORDER BY last_used_at ASC NULLS FIRST` as a key comparison. -/
def nullsFirstLe (a b : ProxyPoolItem) : Bool :=
  match a.last_used_at, b.last_used_at with
  | none, _ => true
  | some _, none => false
  | some x, some y => x ≤ y

def insertSorted (x : ProxyPoolItem) : List ProxyPoolItem → List ProxyPoolItem
  | [] => [x]
  | y :: ys => if nullsFirstLe x y then x :: y :: ys else y :: insertSorted x ys

/-- Stable sort realising the SQL ordering (ties keep row order). -/
def sortNullsFirst (l : List ProxyPoolItem) : List ProxyPoolItem :=
  l.foldr insertSorted []

/-- `Database.get_enabled_proxy_pool_items` (`src/core/database.py`
1345-1353): the enabled rows, ordered by `last_used_at` with NULLs first. -/
def get_enabled_proxy_pool_items (pool : List ProxyPoolItem) : List ProxyPoolItem :=
  sortNullsFirst (pool.filter (fun p => p.enabled))

/-- `ProxyManager._get_next_pool_proxy` (`src/services/proxy_manager.py`
30-41), run under the rotation lock: pick `proxies[idx % len]`, advance the
cursor to `(idx + 1) % len`; an empty enabled pool yields `none` and leaves
the cursor unchanged. -/
def get_next_pool_proxy (pool : List ProxyPoolItem) (idx : Nat) :
    Option String × Nat :=
  let proxies := get_enabled_proxy_pool_items pool
  match proxies.get? (idx % proxies.length) with
  | none => (none, idx)
  | some p => (some p.proxy_url, (idx + 1) % proxies.length)

/-- Single static proxy configuration (`ProxyConfig` in `src/core/models.py`). -/
structure ProxyConfig where
  enabled : Bool
  proxy_url : Option String
deriving Repr, DecidableEq

/-- `ProxyManager.get_proxy_url` (`src/services/proxy_manager.py` 16-28):
pool mode takes the next round-robin entry; otherwise the single static
address when enabled, else none. -/
def get_proxy_url (pool_enabled : Bool) (pool : List ProxyPoolItem)
    (single : Option ProxyConfig) (idx : Nat) : Option String × Nat :=
  if pool_enabled then get_next_pool_proxy pool idx
  else
    match single with
    | some c => (if c.enabled then c.proxy_url else none, idx)
    | none => (none, idx)

/-- C7 — with pool mode enabled and an enabled pool [P1, P2, P3] (none used
yet), four sequential next-proxy calls starting from the initial cursor 0
return P1, P2, P3, P1: round-robin over the enabled entries driven by the
rotation cursor. -/
theorem c7_round_robin :
    let p : Nat → String → ProxyPoolItem := fun i u =>
      { id := i, proxy_url := u, name := none, enabled := true,
        success_count := 0, fail_count := 0, last_used_at := none }
    let pool := [p 1 "P1", p 2 "P2", p 3 "P3"]
    let r1 := get_proxy_url true pool none 0
    let r2 := get_proxy_url true pool none r1.2
    let r3 := get_proxy_url true pool none r2.2
    let r4 := get_proxy_url true pool none r3.2
    r1.1 = some "P1" ∧ r2.1 = some "P2" ∧ r3.1 = some "P3" ∧ r4.1 = some "P1" := by
  decide

/-! ### Video poll loop (`GenerationHandler._poll_video_result`,
`src/services/generation_handler.py` 664-780)

Each attempt sleeps, queries the upstream status (modelled by
`obs : Nat → PollResponse`; a raised exception is caught by the loop and
treated as one more non-terminal attempt), and reacts to the first
operation's status string.  The persisted `GenerationTask` row is threaded
through explicitly; streamed progress lines are collected in a list (their
exact text is abbreviated to ASCII).  The result-cache step on the success
path is modelled separately (`download_and_cache`) and not repeated here. -/

/-- The persisted `tasks` row fields the poll loop writes
(`Task` in `src/core/models.py`). -/
structure TaskRow where
  status : String
  progress : Nat
  result_urls : Option (List String)
  error_message : Option String
  completed_at : Option Nat
deriving Repr, DecidableEq

/-- One operation object of a `check_video_status` response: its `status`
string (absent keys read as `None`), the `metadata.video.fifeUrl`, and the
error code/message (with the source's defaults already applied). -/
structure PollOp where
  status : Option String
  videoUrl : Option String
  errorCode : String
  errorMessage : String
deriving Repr, DecidableEq

/-- A `check_video_status` call either returns a list of operations or
raises (the loop's `except Exception: continue`). -/
inductive PollResponse where
  | ok (ops : List PollOp)
  | exn (msg : String)
deriving Repr, DecidableEq

/-- What `_poll_video_result` terminates with, one constructor per distinct
yield site in the source. -/
inductive PollOutcome where
  | videoSuccess (url : String)
  | emptyVideoUrl
  | videoFailed (msg : String)
  | videoErrorStatus (st : String)
  | pollTimeout (attempts : Nat)
deriving Repr, DecidableEq

/-- The coarse progress line: `min(int((attempt / max_attempts) * 100), 95)`. -/
def progressChunk (attempt maxAttempts : Nat) : String :=
  "progress " ++ toString (min (attempt * 100 / maxAttempts) 95)

/-- The poll loop body, structurally recursive on the remaining attempt
budget (`fuel` starts at `max_poll_attempts`).  Returns the terminal
outcome, the final task row, and the streamed progress lines. -/
def pollAux (obs : Nat → PollResponse) (stream : Bool) (now maxAttempts : Nat)
    (task : TaskRow) : Nat → Nat → PollOutcome × TaskRow × List String
  | _, 0 => (.pollTimeout maxAttempts, task, [])
  | attempt, fuel + 1 =>
    match obs attempt with
    | .exn _ =>
        pollAux obs stream now maxAttempts task (attempt + 1) fuel
    | .ok ops =>
      match ops.head? with
      | none => pollAux obs stream now maxAttempts task (attempt + 1) fuel
      | some op =>
        let progress : List String :=
          if stream ∧ attempt % 7 = 0 then [progressChunk attempt maxAttempts]
          else []
        match op.status with
        | none =>
            let r := pollAux obs stream now maxAttempts task (attempt + 1) fuel
            (r.1, r.2.1, progress ++ r.2.2)
        | some st =>
          if st = "MEDIA_GENERATION_STATUS_SUCCESSFUL" then
            match op.videoUrl with
            | none => (.emptyVideoUrl, task, progress)
            | some url =>
                (.videoSuccess url,
                 { task with status := "completed", progress := 100,
                             result_urls := some [url], completed_at := some now },
                 progress)
          else if st = "MEDIA_GENERATION_STATUS_FAILED" then
            (.videoFailed op.errorMessage,
             { task with status := "failed",
                         error_message :=
                           some (op.errorMessage ++ " (code: " ++ op.errorCode ++ ")"),
                         completed_at := some now },
             progress)
          else if st.startsWith "MEDIA_GENERATION_STATUS_ERROR" then
            (.videoErrorStatus st, task, progress)
          else
            let r := pollAux obs stream now maxAttempts task (attempt + 1) fuel
            (r.1, r.2.1, progress ++ r.2.2)

/-- `GenerationHandler._poll_video_result`: run the loop from attempt 0 with
budget `max_poll_attempts`. -/
def poll_video_result (obs : Nat → PollResponse) (stream : Bool)
    (now maxAttempts : Nat) (task : TaskRow) :
    PollOutcome × TaskRow × List String :=
  pollAux obs stream now maxAttempts task 0 maxAttempts

/-- A poll response that does not end the loop: an exception, an empty
operation list, a missing status, or a status matched by none of the three
terminal checks. -/
def pollNonTerminal : PollResponse → Bool
  | .exn _ => true
  | .ok ops =>
    match ops.head? with
    | none => true
    | some op =>
      match op.status with
      | none => true
      | some st =>
        if st = "MEDIA_GENERATION_STATUS_SUCCESSFUL" then false
        else if st = "MEDIA_GENERATION_STATUS_FAILED" then false
        else if st.startsWith "MEDIA_GENERATION_STATUS_ERROR" then false
        else true

theorem pollAux_all_nonterminal (obs : Nat → PollResponse) (stream : Bool)
    (now maxAttempts : Nat) (task : TaskRow) :
    ∀ fuel attempt, (∀ k, k < fuel → pollNonTerminal (obs (attempt + k)) = true) →
      (pollAux obs stream now maxAttempts task attempt fuel).1 = .pollTimeout maxAttempts
      ∧ (pollAux obs stream now maxAttempts task attempt fuel).2.1 = task := by
  intro fuel
  induction fuel with
  | zero => intro attempt _; exact ⟨rfl, rfl⟩
  | succ fuel ih =>
    intro attempt h
    have h0 : pollNonTerminal (obs attempt) = true := h 0 (Nat.succ_pos fuel)
    have hrec : ∀ k, k < fuel → pollNonTerminal (obs (attempt + 1 + k)) = true := by
      intro k hk
      have := h (k + 1) (by omega)
      simpa [Nat.add_assoc, Nat.add_comm 1 k] using this
    have ihn := ih (attempt + 1) hrec
    cases hobs : obs attempt with
    | exn m =>
        simpa [pollAux, hobs] using ihn
    | ok ops =>
      cases hops : ops.head? with
      | none => simpa [pollAux, hobs, hops] using ihn
      | some op =>
        cases hst : op.status with
        | none => simpa [pollAux, hobs, hops, hst] using ihn
        | some st =>
          simp only [pollNonTerminal, hobs, hops, hst] at h0
          by_cases h1 : st = "MEDIA_GENERATION_STATUS_SUCCESSFUL"
          · simp [h1] at h0
          · by_cases h2 : st = "MEDIA_GENERATION_STATUS_FAILED"
            · simp [h1, h2] at h0
            · by_cases h3 : st.startsWith "MEDIA_GENERATION_STATUS_ERROR" = true
              · simp [h1, h2, h3] at h0
              · simpa [pollAux, hobs, hops, hst, h1, h2, h3] using ihn

/-- C8 — when every one of the `max_poll_attempts` attempts is non-terminal,
the poll loop ends with the timeout error to the caller and the persisted
task row is untouched: its status is still "processing". -/
theorem c8_poll_timeout (obs : Nat → PollResponse) (stream : Bool)
    (now maxAttempts : Nat) (task : TaskRow)
    (hterm : ∀ a, a < maxAttempts → pollNonTerminal (obs a) = true)
    (hproc : task.status = "processing") :
    (poll_video_result obs stream now maxAttempts task).1 = .pollTimeout maxAttempts
    ∧ (poll_video_result obs stream now maxAttempts task).2.1 = task
    ∧ (poll_video_result obs stream now maxAttempts task).2.1.status = "processing" := by
  have h := pollAux_all_nonterminal obs stream now maxAttempts task maxAttempts 0
    (fun k hk => by simpa using hterm k (by simpa using hk))
  exact ⟨h.1, h.2, by rw [poll_video_result, h.2, hproc]⟩

/-- Witness for `c8_poll_timeout`: a 3-attempt budget in which every status
query returns an empty operation list times out and leaves the concrete
"processing" row unchanged. -/
theorem c8_poll_timeout_witness :
    let task0 : TaskRow :=
      { status := "processing", progress := 0, result_urls := none,
        error_message := none, completed_at := none }
    (poll_video_result (fun _ => .ok []) true 50 3 task0).1 = .pollTimeout 3
    ∧ (poll_video_result (fun _ => .ok []) true 50 3 task0).2.1 = task0
    ∧ (poll_video_result (fun _ => .ok []) true 50 3 task0).2.1.status = "processing" := by
  exact c8_poll_timeout (fun _ => .ok []) true 50 3
    { status := "processing", progress := 0, result_urls := none,
      error_message := none, completed_at := none }
    (fun _ _ => rfl) rfl

/-! ### Generation orchestrator (`GenerationHandler.handle_generation`,
`src/services/generation_handler.py` 225-380 and
`_handle_image_generation` / `_handle_video_generation`, 395-663)

The per-request state machine is embedded as a trace-producing function:
outbound calls and registry writes appear as `Effect` events, streamed text
lines as `chunk` events (their Chinese text abbreviated to ASCII labels) and
yielded JSON responses as `response` events.  The outside world — the load
balancer's pick, the token manager's credential check, the flow client's
upload/submit results, the poll responses — is an explicit `Env` record; a
raised Python exception is an `Except.error` carried to the single
`try/except` of `handle_generation`.  The token manager, load balancer and
concurrency manager objects are not under `src/`; their calls appear as
effects only (the recorded trace), matching how `generation_handler.py`
invokes them. -/

/-- One entry of the static `MODEL_CONFIG` table
(`src/services/generation_handler.py` 14-192).  `supports_images`,
`min_images` and `max_images` are read with `.get(...)` defaults
(False, 0, 0); `max_images = none` is the r2v "unlimited" `None`. -/
structure ModelCfg where
  media : String
  model_name : String
  video_type : Option String
  model_key : String
  aspect : String
  supports_images : Bool
  min_images : Nat
  max_images : Option Nat
deriving Repr, DecidableEq

def imageCfg (mn ar : String) : ModelCfg :=
  { media := "image", model_name := mn, video_type := none, model_key := "",
    aspect := ar, supports_images := false, min_images := 0, max_images := some 0 }

def t2vCfg (mk ar : String) : ModelCfg :=
  { media := "video", model_name := "", video_type := some "t2v", model_key := mk,
    aspect := ar, supports_images := false, min_images := 0, max_images := some 0 }

def i2vCfg (mk ar : String) : ModelCfg :=
  { media := "video", model_name := "", video_type := some "i2v", model_key := mk,
    aspect := ar, supports_images := true, min_images := 1, max_images := some 2 }

def r2vCfg (mk ar : String) : ModelCfg :=
  { media := "video", model_name := "", video_type := some "r2v", model_key := mk,
    aspect := ar, supports_images := true, min_images := 0, max_images := none }

/-- The full `MODEL_CONFIG` capability table. -/
def MODEL_CONFIG : List (String × ModelCfg) := [
  ("gemini-2.5-flash-image-landscape", imageCfg "GEM_PIX" "IMAGE_ASPECT_RATIO_LANDSCAPE"),
  ("gemini-2.5-flash-image-portrait", imageCfg "GEM_PIX" "IMAGE_ASPECT_RATIO_PORTRAIT"),
  ("gemini-3.0-pro-image-landscape", imageCfg "GEM_PIX_2" "IMAGE_ASPECT_RATIO_LANDSCAPE"),
  ("gemini-3.0-pro-image-portrait", imageCfg "GEM_PIX_2" "IMAGE_ASPECT_RATIO_PORTRAIT"),
  ("imagen-4.0-generate-preview-landscape", imageCfg "IMAGEN_3_5" "IMAGE_ASPECT_RATIO_LANDSCAPE"),
  ("imagen-4.0-generate-preview-portrait", imageCfg "IMAGEN_3_5" "IMAGE_ASPECT_RATIO_PORTRAIT"),
  ("veo_3_1_t2v_fast_portrait", t2vCfg "veo_3_1_t2v_fast_portrait" "VIDEO_ASPECT_RATIO_PORTRAIT"),
  ("veo_3_1_t2v_fast_landscape", t2vCfg "veo_3_1_t2v_fast" "VIDEO_ASPECT_RATIO_LANDSCAPE"),
  ("veo_2_1_fast_d_15_t2v_portrait", t2vCfg "veo_2_1_fast_d_15_t2v" "VIDEO_ASPECT_RATIO_PORTRAIT"),
  ("veo_2_1_fast_d_15_t2v_landscape", t2vCfg "veo_2_1_fast_d_15_t2v" "VIDEO_ASPECT_RATIO_LANDSCAPE"),
  ("veo_2_0_t2v_portrait", t2vCfg "veo_2_0_t2v" "VIDEO_ASPECT_RATIO_PORTRAIT"),
  ("veo_2_0_t2v_landscape", t2vCfg "veo_2_0_t2v" "VIDEO_ASPECT_RATIO_LANDSCAPE"),
  ("veo_3_1_i2v_s_fast_fl_portrait", i2vCfg "veo_3_1_i2v_s_fast_portrait_fl_ultra_relaxed" "VIDEO_ASPECT_RATIO_PORTRAIT"),
  ("veo_3_1_i2v_s_fast_fl_landscape", i2vCfg "veo_3_1_i2v_s_fast_landscape_fl_ultra_relaxed" "VIDEO_ASPECT_RATIO_LANDSCAPE"),
  ("veo_2_1_fast_d_15_i2v_portrait", i2vCfg "veo_2_1_fast_d_15_i2v" "VIDEO_ASPECT_RATIO_PORTRAIT"),
  ("veo_2_1_fast_d_15_i2v_landscape", i2vCfg "veo_2_1_fast_d_15_i2v" "VIDEO_ASPECT_RATIO_LANDSCAPE"),
  ("veo_2_0_i2v_portrait", i2vCfg "veo_2_0_i2v" "VIDEO_ASPECT_RATIO_PORTRAIT"),
  ("veo_2_0_i2v_landscape", i2vCfg "veo_2_0_i2v" "VIDEO_ASPECT_RATIO_LANDSCAPE"),
  ("veo_3_0_r2v_fast_portrait", r2vCfg "veo_3_0_r2v_fast" "VIDEO_ASPECT_RATIO_PORTRAIT"),
  ("veo_3_0_r2v_fast_landscape", r2vCfg "veo_3_0_r2v_fast" "VIDEO_ASPECT_RATIO_LANDSCAPE")]

/-- `model not in MODEL_CONFIG` / `MODEL_CONFIG[model]`. -/
def lookupModel (m : String) : Option ModelCfg :=
  (MODEL_CONFIG.find? (fun p => p.1 = m)).map (fun p => p.2)

/-- Which submission call the orchestrator makes (step 6 of the spec's state
machine). -/
inductive SubmitKind where
  | textOnly
  | startOnly
  | startEnd
  | referenceImages (n : Nat)
  | imageGen (n : Nat)
deriving Repr, DecidableEq

/-- Registry / collaborator side effects visible in a request's trace. -/
inductive Effect where
  | selectToken (id : Nat)
  | acquireImage (id : Nat)
  | releaseImage (id : Nat)
  | acquireVideo (id : Nat)
  | releaseVideo (id : Nat)
  | uploadImage (id idx : Nat)
  | submit (k : SubmitKind)
  | createTask (opName : String)
  | taskCompleted (url : String)
  | taskFailed (msg : String)
  | recordUsage (id : Nat) (isVideo : Bool)
  | recordSuccess (id : Nat)
  | recordError (id : Nat)
  | banFor429 (id : Nat)
deriving Repr, DecidableEq

/-- The structured responses `handle_generation` can yield, one constructor
per `_create_error_response` / `_create_completion_response` call site. -/
inductive GenOutcome where
  | invalidModel (m : String)
  | availabilityCheck (available : Bool)
  | noToken
  | atInvalid
  | imageCountInvalid (mn mx count : Nat)
  | admissionRejected (isVideo : Bool)
  | emptyImageResult
  | submitEmpty
  | imageSuccess (url : String)
  | poll (o : PollOutcome)
  | generationFailed (msg : String)
deriving Repr, DecidableEq

/-- A trace event: a streamed text line, a side effect, or a yielded
structured response. -/
inductive Ev where
  | chunk (s : String)
  | effect (e : Effect)
  | response (o : GenOutcome)
deriving Repr, DecidableEq

/-- The request's environment: everything outside `generation_handler.py`
that the state machine consults, fixed for the duration of one request. -/
structure Env where
  select_result : Option Token
  at_valid : Bool
  token_refetch : Token
  project : Except String String
  image_acquire_ok : Bool
  video_acquire_ok : Bool
  upload : Nat → Except String String
  image_gen : Except String (Option String)
  video_submit : Except String (List String)
  poll_obs : Nat → PollResponse
  maxAttempts : Nat
  now : Nat

/-- Python's `"429" in str(e)` substring test. -/
def listContainsSub : List Char → List Char → Bool
  | [], pat => pat.isEmpty
  | c :: t, pat => pat.isPrefixOf (c :: t) || listContainsSub t pat

def strContains (s pat : String) : Bool :=
  listContainsSub s.toList pat.toList

/-- The 429 detection of the outer catch
(`src/services/generation_handler.py` 361-363):
`"429" in str(e) or "HTTP Error 429" in str(e)`. -/
def is429 (e : String) : Bool :=
  strContains e "429" || strContains e "HTTP Error 429"

/-- Sequential `flow_client.upload_image` calls for indices
`[start, start+n)`: the first raised error aborts the sequence. -/
def upload_run (env : Env) (tokId : Nat) : Nat → Nat → List Ev × Option String
  | _, 0 => ([], none)
  | i, n + 1 =>
    match env.upload i with
    | .error e => ([], some e)
    | .ok _ =>
        let r := upload_run env tokId (i + 1) n
        (Ev.effect (.uploadImage tokId i) :: r.1, r.2)

/-- The i2v reference-image count check
(`src/services/generation_handler.py` 522-528):
`image_count < min_images or image_count > max_images`. -/
def i2vCountBad (cfg : ModelCfg) (n : Nat) : Bool :=
  decide (n < cfg.min_images) ||
    (match cfg.max_images with
     | some mx => decide (mx < n)
     | none => false)

def initialTaskRow : TaskRow :=
  { status := "processing", progress := 0, result_urls := none,
    error_message := none, completed_at := none }

/-- Terminal events of the poll loop (one list per `PollOutcome`), with the
task-row writes of `_poll_video_result` shown as effects. -/
def pollOutcomeEvs : PollOutcome → List Ev
  | .videoSuccess url =>
      [.effect (.taskCompleted url), .response (.poll (.videoSuccess url))]
  | .emptyVideoUrl => [.response (.poll .emptyVideoUrl)]
  | .videoFailed m =>
      [.effect (.taskFailed m), .chunk "video failed line",
       .response (.poll (.videoFailed m))]
  | .videoErrorStatus s => [.response (.poll (.videoErrorStatus s))]
  | .pollTimeout n => [.response (.poll (.pollTimeout n))]

/-- The upload / submit / create-task / poll phase of
`_handle_video_generation` (lines 535-654), shared by every video sub-type
once the image-count handling is done. -/
def video_after_validation (env : Env) (tok : Token) (cfg : ModelCfg)
    (imageCount : Nat) (stream : Bool) : List Ev × Option String :=
  let up : List Ev × Option String :=
    if cfg.video_type = some "i2v" ∧ 0 < imageCount then
      if imageCount = 1 then
        let r := upload_run env tok.id 0 1
        ((if stream then [Ev.chunk "upload start frame"] else []) ++ r.1, r.2)
      else if imageCount = 2 then
        let r := upload_run env tok.id 0 2
        ((if stream then [Ev.chunk "upload start and end frames"] else []) ++ r.1, r.2)
      else ([], none)
    else if cfg.video_type = some "r2v" ∧ 0 < imageCount then
      let r := upload_run env tok.id 0 imageCount
      ((if stream then [Ev.chunk "upload reference images"] else []) ++ r.1, r.2)
    else ([], none)
  match up.2 with
  | some e => (up.1, some e)
  | none =>
    let kind : SubmitKind :=
      if cfg.video_type = some "i2v" ∧ (imageCount = 1 ∨ imageCount = 2) then
        (if imageCount = 2 then .startEnd else .startOnly)
      else if cfg.video_type = some "r2v" ∧ 0 < imageCount then
        .referenceImages imageCount
      else .textOnly
    let base := up.1 ++ (if stream then [Ev.chunk "submitting video task"] else [])
      ++ [Ev.effect (.submit kind)]
    match env.video_submit with
    | .error e => (base, some e)
    | .ok [] => (base ++ [Ev.response .submitEmpty], none)
    | .ok (opName :: _) =>
      let pollR := poll_video_result env.poll_obs stream env.now env.maxAttempts
        initialTaskRow
      (base ++ [Ev.effect (.createTask opName)]
        ++ (if stream then [Ev.chunk "video generating"] else [])
        ++ pollR.2.2.map Ev.chunk
        ++ pollOutcomeEvs pollR.1, none)

/-- The streamed t2v warning line
("text-to-video model does not support images, ignoring them"). -/
def warnT2V : Ev := Ev.chunk "t2v images ignored warning"

/-- The `try` body of `_handle_video_generation` (lines 500-654): t2v drops
any supplied images (with a streamed warning), i2v rejects a reference-image
count outside [min, max] with a validation error and a normal return, and
everything else proceeds to the shared upload/submit/poll phase. -/
def inner_video_try (env : Env) (tok : Token) (cfg : ModelCfg)
    (imageCount0 : Nat) (stream : Bool) : List Ev × Option String :=
  if cfg.video_type = some "t2v" then
    let warn := if 0 < imageCount0 ∧ stream then [warnT2V] else []
    let r := video_after_validation env tok cfg 0 stream
    (warn ++ r.1, r.2)
  else if cfg.video_type = some "i2v" ∧ i2vCountBad cfg imageCount0 then
    ((if stream then [Ev.chunk "i2v image count error"] else [])
      ++ [Ev.response (.imageCountInvalid cfg.min_images (cfg.max_images.getD 0)
            imageCount0)], none)
  else
    video_after_validation env tok cfg imageCount0 stream

/-- `_handle_video_generation` (lines 483-663): non-blocking slot
acquisition, the `try` body above, and the `finally` slot release (which
runs both on normal return and on a raised error). -/
def inner_video (env : Env) (tok : Token) (cfg : ModelCfg)
    (imageCount : Nat) (stream : Bool) : List Ev × Option String :=
  if env.video_acquire_ok = false then
    ([Ev.response (.admissionRejected true)], none)
  else
    let r := inner_video_try env tok cfg imageCount stream
    (Ev.effect (.acquireVideo tok.id) :: r.1 ++ [Ev.effect (.releaseVideo tok.id)], r.2)

/-- The `try` body of `_handle_image_generation` (lines 395-476); per-image
progress lines and the cache step (modelled by `download_and_cache`) are
elided from the trace. -/
def inner_image_try (env : Env) (tok : Token) (imageCount : Nat)
    (stream : Bool) : List Ev × Option String :=
  let up : List Ev × Option String :=
    if 0 < imageCount then
      let r := upload_run env tok.id 0 imageCount
      ((if stream then [Ev.chunk "uploading reference images"] else []) ++ r.1, r.2)
    else ([], none)
  match up.2 with
  | some e => (up.1, some e)
  | none =>
    let base := up.1 ++ (if stream then [Ev.chunk "generating image"] else [])
      ++ [Ev.effect (.submit (.imageGen imageCount))]
    match env.image_gen with
    | .error e => (base, some e)
    | .ok none => (base ++ [Ev.response .emptyImageResult], none)
    | .ok (some url) => (base ++ [Ev.response (.imageSuccess url)], none)

/-- `_handle_image_generation` (lines 387-482) with its slot acquisition and
`finally` release. -/
def inner_image (env : Env) (tok : Token) (imageCount : Nat)
    (stream : Bool) : List Ev × Option String :=
  if env.image_acquire_ok = false then
    ([Ev.response (.admissionRejected false)], none)
  else
    let r := inner_image_try env tok imageCount stream
    (Ev.effect (.acquireImage tok.id) :: r.1 ++ [Ev.effect (.releaseImage tok.id)], r.2)

/-- The `try` body of `handle_generation` (steps 3-7, lines 298-354): the
credential check returns from the whole generator on failure (recording
nothing); after the re-fetch and project step the image/video sub-generator
runs, and — when it finishes without raising, validation errors included —
usage and success are recorded on the token. -/
def handle_gen_try (env : Env) (_tok : Token) (cfg : ModelCfg)
    (imageCount : Nat) (stream : Bool) : List Ev × Option String :=
  let evs0 := if stream then [Ev.chunk "initializing"] else []
  if env.at_valid = false then
    (evs0 ++ (if stream then [Ev.chunk "at invalid"] else [])
      ++ [Ev.response .atInvalid], none)
  else
    let tok2 := env.token_refetch
    match env.project with
    | .error e => (evs0, some e)
    | .ok _ =>
      let inner :=
        if cfg.media = "image" then inner_image env tok2 imageCount stream
        else inner_video env tok2 cfg imageCount stream
      match inner.2 with
      | some e => (evs0 ++ inner.1, some e)
      | none =>
        (evs0 ++ inner.1
          ++ [Ev.effect (.recordUsage tok2.id (cfg.media == "video")),
              Ev.effect (.recordSuccess tok2.id)], none)

/-- `GenerationHandler.handle_generation` (lines 225-380): model validation,
the non-stream availability check, token selection, the `try` body, and the
catch that dispatches a raised error to `ban_token_for_429` (429 substring)
or `record_error` (anything else).  A raise can only happen after the
credential re-fetch, so the catch records against `env.token_refetch`. -/
def handle_generation (env : Env) (model : String) (imageCount : Nat)
    (stream : Bool) : List Ev :=
  match lookupModel model with
  | none => [Ev.response (.invalidModel model)]
  | some cfg =>
    if stream = false then
      [Ev.response (.availabilityCheck env.select_result.isSome)]
    else
      let pre := [Ev.chunk "generation task started"]
      match env.select_result with
      | none => pre ++ [Ev.chunk "no token", Ev.response .noToken]
      | some tok =>
        let pre2 := pre ++ [Ev.effect (.selectToken tok.id)]
        let r := handle_gen_try env tok cfg imageCount stream
        match r.2 with
        | none => pre2 ++ r.1
        | some e =>
          pre2 ++ r.1
            ++ [Ev.chunk "generation failed line",
                Ev.effect (if is429 e then .banFor429 env.token_refetch.id
                           else .recordError env.token_refetch.id),
                Ev.response (.generationFailed e)]

/-- C3 counterexample — the claim "a request that fails model validation
consumes no token: no token is recorded against in any way" is false on the
code for the reference-image-count half: a start/end-frame (i2v) model
invoked with 0 reference images ends with the validation error, yet because
the sub-generator returns normally, `handle_generation` proceeds to record
usage and a success reset against the selected token (id 7 here). -/
theorem c3_counterexample :
    let tok : Token :=
      { id := 7, is_active := true, image_enabled := true, video_enabled := true,
        use_count := 0, ban_reason := none, banned_at := none }
    let env : Env :=
      { select_result := some tok, at_valid := true, token_refetch := tok,
        project := .ok "proj-1", image_acquire_ok := true, video_acquire_ok := true,
        upload := fun _ => .ok "m", image_gen := .ok (some "img-url"),
        video_submit := .ok ["op-1"], poll_obs := fun _ => .ok [],
        maxAttempts := 2, now := 100 }
    let trace := handle_generation env "veo_3_1_i2v_s_fast_fl_portrait" 0 true
    Ev.response (.imageCountInvalid 1 2 0) ∈ trace
    ∧ Ev.effect (.recordUsage 7 true) ∈ trace
    ∧ Ev.effect (.recordSuccess 7) ∈ trace := by
  decide

/-- C3 amended — an unknown model name terminates with a validation error
before any token is touched (the trace is the bare error response); an i2v
reference-image-count violation terminates with a validation error after
token selection, without uploading anything and without recording a token
*error*, but the selected token still receives a usage increment and a
success reset from the surrounding generator. -/
theorem c3_validation_paths (env : Env) (model : String) (n : Nat) :
    (lookupModel model = none →
      ∀ st, handle_generation env model n st = [Ev.response (.invalidModel model)])
    ∧ (∀ cfg tok pid,
        lookupModel model = some cfg →
        cfg.media = "video" →
        cfg.video_type = some "i2v" →
        i2vCountBad cfg n = true →
        env.select_result = some tok →
        env.at_valid = true →
        env.token_refetch = tok →
        env.project = Except.ok pid →
        env.video_acquire_ok = true →
        Ev.response (.imageCountInvalid cfg.min_images (cfg.max_images.getD 0) n)
            ∈ handle_generation env model n true
        ∧ Ev.effect (.recordUsage tok.id true) ∈ handle_generation env model n true
        ∧ Ev.effect (.recordSuccess tok.id) ∈ handle_generation env model n true
        ∧ (∀ i, Ev.effect (.recordError i) ∉ handle_generation env model n true)
        ∧ (∀ i j, Ev.effect (.uploadImage i j) ∉ handle_generation env model n true)) := by
  constructor
  · intro hmiss st
    simp [handle_generation, hmiss]
  · intro cfg tok pid hlook hmedia hvt hbad hsel hat href hproj hacq
    have htrace : handle_generation env model n true =
        [Ev.chunk "generation task started", Ev.effect (.selectToken tok.id),
         Ev.chunk "initializing", Ev.effect (.acquireVideo tok.id),
         Ev.chunk "i2v image count error",
         Ev.response (.imageCountInvalid cfg.min_images (cfg.max_images.getD 0) n),
         Ev.effect (.releaseVideo tok.id),
         Ev.effect (.recordUsage tok.id true),
         Ev.effect (.recordSuccess tok.id)] := by
      simp [handle_generation, handle_gen_try, inner_video, inner_video_try,
            hlook, hmedia, hvt, hbad, hsel, hat, href, hproj, hacq]
    rw [htrace]
    refine ⟨by simp, by simp, by simp, fun i => by simp, fun i j => by simp⟩

/-- Witness for `c3_validation_paths`: the unknown model name "nope" and the
i2v model `veo_2_0_i2v_portrait` called with 5 reference images. -/
theorem c3_validation_paths_witness :
    let tok : Token :=
      { id := 9, is_active := true, image_enabled := true, video_enabled := true,
        use_count := 0, ban_reason := none, banned_at := none }
    let env : Env :=
      { select_result := some tok, at_valid := true, token_refetch := tok,
        project := .ok "p", image_acquire_ok := true, video_acquire_ok := true,
        upload := fun _ => .ok "m", image_gen := .ok none,
        video_submit := .ok [], poll_obs := fun _ => .ok [],
        maxAttempts := 1, now := 5 }
    handle_generation env "nope" 0 true = [Ev.response (.invalidModel "nope")]
    ∧ Ev.effect (.recordUsage 9 true) ∈ handle_generation env "veo_2_0_i2v_portrait" 5 true
    ∧ (∀ i j, Ev.effect (.uploadImage i j) ∉ handle_generation env "veo_2_0_i2v_portrait" 5 true) := by
  intro tok env
  refine ⟨(c3_validation_paths env "nope" 0).1 (by decide) true, ?_, ?_⟩
  · exact ((c3_validation_paths env "veo_2_0_i2v_portrait" 5).2
      (i2vCfg "veo_2_0_i2v" "VIDEO_ASPECT_RATIO_PORTRAIT") tok "p"
      (by decide) rfl rfl (by decide) rfl rfl rfl rfl rfl).2.1
  · exact ((c3_validation_paths env "veo_2_0_i2v_portrait" 5).2
      (i2vCfg "veo_2_0_i2v" "VIDEO_ASPECT_RATIO_PORTRAIT") tok "p"
      (by decide) rfl rfl (by decide) rfl rfl rfl rfl rfl).2.2.2.2

/-! ### The catch dispatch (C4): the only events that record an error or a
ban against a token are emitted by the outer catch of `handle_generation`. -/

/-- An event that records an error against a token or bans it. -/
def isRecordingEv : Ev → Bool
  | .effect (.recordError _) => true
  | .effect (.banFor429 _) => true
  | _ => false

/-- No event of the list records an error or a ban. -/
def recFree (l : List Ev) : Bool := l.all (fun e => !isRecordingEv e)

@[simp] theorem recFree_nil : recFree [] = true := rfl

@[simp] theorem recFree_cons (e : Ev) (l : List Ev) :
    recFree (e :: l) = (!isRecordingEv e && recFree l) := by
  simp [recFree]

@[simp] theorem recFree_append (a b : List Ev) :
    recFree (a ++ b) = (recFree a && recFree b) := by
  simp [recFree]

@[simp] theorem recFree_map_chunk (l : List String) :
    recFree (l.map Ev.chunk) = true := by
  induction l with
  | nil => rfl
  | cons s t ih => simpa [isRecordingEv] using ih

@[simp] theorem recFree_pollOutcomeEvs (o : PollOutcome) :
    recFree (pollOutcomeEvs o) = true := by
  cases o <;> rfl

@[simp] theorem recFree_upload_run (env : Env) (tokId : Nat) :
    ∀ n i, recFree (upload_run env tokId i n).1 = true := by
  intro n
  induction n with
  | zero => intro i; rfl
  | succ n ih =>
      intro i
      cases h : env.upload i with
      | error e => simp [upload_run, h]
      | ok v => simp [upload_run, h, isRecordingEv, ih]

@[simp] theorem recFree_ite (c : Prop) [Decidable c] (a b : List Ev)
    (ha : recFree a = true) (hb : recFree b = true) :
    recFree (if c then a else b) = true := by
  split <;> assumption

theorem recFree_video_after_validation (env : Env) (tok : Token)
    (cfg : ModelCfg) (n : Nat) (st : Bool) :
    recFree (video_after_validation env tok cfg n st).1 = true := by
  unfold video_after_validation
  dsimp only
  repeat' split
  all_goals simp [isRecordingEv]

theorem recFree_inner_video (env : Env) (tok : Token) (cfg : ModelCfg)
    (n : Nat) (st : Bool) :
    recFree (inner_video env tok cfg n st).1 = true := by
  unfold inner_video inner_video_try
  dsimp only
  repeat' split
  all_goals simp [isRecordingEv, warnT2V, recFree_video_after_validation]

theorem recFree_inner_image (env : Env) (tok : Token) (n : Nat) (st : Bool) :
    recFree (inner_image env tok n st).1 = true := by
  unfold inner_image inner_image_try
  dsimp only
  repeat' split
  all_goals simp [isRecordingEv]

theorem recFree_handle_gen_try (env : Env) (tok : Token) (cfg : ModelCfg)
    (n : Nat) (st : Bool) :
    recFree (handle_gen_try env tok cfg n st).1 = true := by
  unfold handle_gen_try
  dsimp only
  repeat' split
  all_goals simp [isRecordingEv, recFree_inner_image, recFree_inner_video]

theorem not_mem_of_recFree (l : List Ev) (h : recFree l = true) (ev : Ev)
    (hev : isRecordingEv ev = true) : ev ∉ l := by
  intro hmem
  have := List.all_eq_true.mp h ev hmem
  rw [hev] at this
  simp at this

/-- C4 — when the `try` body of `handle_generation` raises error `e` after a
token was selected (and re-fetched), the catch consults the 429 test first:
a rate-limit error bans the token via `ban_token_for_429` and records no
generic error, any other error records a generic token error and bans
nothing; and `ban_token_for_429` forces `is_active = false` on every token,
whatever its consecutive-error state. -/
theorem c4_catch_dispatch (env : Env) (model : String) (n : Nat)
    (cfg : ModelCfg) (tok : Token) (e : String)
    (hlook : lookupModel model = some cfg)
    (hsel : env.select_result = some tok)
    (href : env.token_refetch = tok)
    (hraise : (handle_gen_try env tok cfg n true).2 = some e) :
    (is429 e = true →
      Ev.effect (.banFor429 tok.id) ∈ handle_generation env model n true
      ∧ ∀ i, Ev.effect (.recordError i) ∉ handle_generation env model n true)
    ∧ (is429 e = false →
      Ev.effect (.recordError tok.id) ∈ handle_generation env model n true
      ∧ ∀ i, Ev.effect (.banFor429 i) ∉ handle_generation env model n true)
    ∧ (∀ now t, (ban_token_for_429 now t).is_active = false) := by
  have htrace : handle_generation env model n true =
      ([Ev.chunk "generation task started", Ev.effect (.selectToken tok.id)]
        ++ (handle_gen_try env tok cfg n true).1)
      ++ [Ev.chunk "generation failed line",
          Ev.effect (if is429 e then .banFor429 tok.id else .recordError tok.id),
          Ev.response (.generationFailed e)] := by
    simp [handle_generation, hlook, hsel, href, hraise]
  have hfree : recFree ([Ev.chunk "generation task started",
      Ev.effect (.selectToken tok.id)] ++ (handle_gen_try env tok cfg n true).1) = true := by
    simp [isRecordingEv, recFree_handle_gen_try]
  refine ⟨fun h429 => ⟨?_, fun i => ?_⟩, fun h429 => ⟨?_, fun i => ?_⟩,
          fun now t => rfl⟩
  · rw [htrace]
    simp [h429]
  · rw [htrace]
    intro hmem
    rcases List.mem_append.mp hmem with hl | hr
    · exact not_mem_of_recFree _ hfree (Ev.effect (.recordError i)) rfl hl
    · simp [h429] at hr
  · rw [htrace]
    simp [h429]
  · rw [htrace]
    intro hmem
    rcases List.mem_append.mp hmem with hl | hr
    · exact not_mem_of_recFree _ hfree (Ev.effect (.banFor429 i)) rfl hl
    · simp [h429] at hr

/-- Witness for `c4_catch_dispatch`: a submit raising "HTTP Error 429: Too
Many Requests" bans token 3 and records no generic error, while a raise of
"upstream 500" records a generic error and bans nothing. -/
theorem c4_catch_dispatch_witness :
    let tok : Token :=
      { id := 3, is_active := true, image_enabled := true, video_enabled := true,
        use_count := 0, ban_reason := none, banned_at := none }
    let mkEnv : String → Env := fun msg =>
      { select_result := some tok, at_valid := true, token_refetch := tok,
        project := .ok "p", image_acquire_ok := true, video_acquire_ok := true,
        upload := fun _ => .ok "m", image_gen := .ok none,
        video_submit := .error msg, poll_obs := fun _ => .ok [],
        maxAttempts := 1, now := 5 }
    Ev.effect (.banFor429 3)
      ∈ handle_generation (mkEnv "HTTP Error 429: Too Many Requests")
          "veo_3_1_t2v_fast_portrait" 0 true
    ∧ Ev.effect (.recordError 3)
        ∉ handle_generation (mkEnv "HTTP Error 429: Too Many Requests")
            "veo_3_1_t2v_fast_portrait" 0 true
    ∧ Ev.effect (.recordError 3)
        ∈ handle_generation (mkEnv "upstream 500") "veo_3_1_t2v_fast_portrait" 0 true
    ∧ Ev.effect (.banFor429 3)
        ∉ handle_generation (mkEnv "upstream 500") "veo_3_1_t2v_fast_portrait" 0 true := by
  intro tok mkEnv
  have h429 := c4_catch_dispatch (mkEnv "HTTP Error 429: Too Many Requests")
    "veo_3_1_t2v_fast_portrait" 0
    (t2vCfg "veo_3_1_t2v_fast_portrait" "VIDEO_ASPECT_RATIO_PORTRAIT") tok
    "HTTP Error 429: Too Many Requests" (by decide) rfl rfl (by decide)
  have hgen := c4_catch_dispatch (mkEnv "upstream 500")
    "veo_3_1_t2v_fast_portrait" 0
    (t2vCfg "veo_3_1_t2v_fast_portrait" "VIDEO_ASPECT_RATIO_PORTRAIT") tok
    "upstream 500" (by decide) rfl rfl (by decide)
  have ha := h429.1 (by decide)
  have hb := hgen.2.1 (by decide)
  exact ⟨ha.1, ha.2 3, hb.1, hb.2 3⟩

theorem upload_not_in_pollOutcomeEvs (i j : Nat) (o : PollOutcome) :
    Ev.effect (.uploadImage i j) ∉ pollOutcomeEvs o := by
  cases o <;> simp [pollOutcomeEvs]

/-- No event of the list uploads an image. -/
def uploadFree (l : List Ev) : Bool :=
  l.all (fun ev => match ev with
    | .effect (.uploadImage _ _) => false
    | _ => true)

@[simp] theorem uploadFree_nil : uploadFree [] = true := rfl

@[simp] theorem uploadFree_append (a b : List Ev) :
    uploadFree (a ++ b) = (uploadFree a && uploadFree b) := by
  simp [uploadFree]

@[simp] theorem uploadFree_map_chunk (l : List String) :
    uploadFree (l.map Ev.chunk) = true := by
  induction l with
  | nil => rfl
  | cons s t _ => simp [uploadFree]

@[simp] theorem uploadFree_pollOutcomeEvs (o : PollOutcome) :
    uploadFree (pollOutcomeEvs o) = true := by
  cases o <;> rfl

theorem uploadFree_mem_pollOutcomeEvs (o : PollOutcome) :
    ∀ x ∈ pollOutcomeEvs o,
      (match x with
        | Ev.effect (.uploadImage _ _) => false
        | _ => true) = true := by
  cases o <;> simp [pollOutcomeEvs]

theorem uploadFree_after_validation_zero (env : Env) (tok : Token)
    (cfg : ModelCfg) (st : Bool) :
    uploadFree (video_after_validation env tok cfg 0 st).1 = true := by
  unfold video_after_validation
  dsimp only
  repeat' split
  all_goals try simp_all [uploadFree]
  all_goals exact uploadFree_mem_pollOutcomeEvs _

theorem not_mem_of_uploadFree (l : List Ev) (h : uploadFree l = true)
    (i j : Nat) : Ev.effect (.uploadImage i j) ∉ l := by
  intro hmem
  have := List.all_eq_true.mp h _ hmem
  simp at this

theorem upload_not_in_after_validation_t2v (env : Env) (tok : Token)
    (cfg : ModelCfg) (st : Bool) (i j : Nat) :
    Ev.effect (.uploadImage i j) ∉ (video_after_validation env tok cfg 0 st).1 :=
  not_mem_of_uploadFree _ (uploadFree_after_validation_zero env tok cfg st) i j

/-- C9 — a text-only (t2v) video model invoked with N > 0 reference images
discards them: the streaming caller gets the warning line, no image is
uploaded, the submission is the text-only call, and apart from the warning
line the trace is exactly the trace of the same request with zero images. -/
theorem c9_t2v_drops_images (env : Env) (model : String) (n : Nat)
    (cfg : ModelCfg) (tok : Token) (pid : String)
    (hlook : lookupModel model = some cfg)
    (hmedia : cfg.media = "video")
    (hvt : cfg.video_type = some "t2v")
    (hn : 0 < n)
    (hsel : env.select_result = some tok)
    (hat : env.at_valid = true)
    (href : env.token_refetch = tok)
    (hproj : env.project = Except.ok pid)
    (hacq : env.video_acquire_ok = true) :
    warnT2V ∈ handle_generation env model n true
    ∧ (∀ i j, Ev.effect (.uploadImage i j) ∉ handle_generation env model n true)
    ∧ Ev.effect (.submit .textOnly) ∈ handle_generation env model n true
    ∧ (handle_generation env model n true).erase warnT2V
        = handle_generation env model 0 true := by
  have hkind : (if cfg.video_type = some "i2v" ∧ ((0:Nat) = 1 ∨ (0:Nat) = 2) then
      (if (0:Nat) = 2 then SubmitKind.startEnd else SubmitKind.startOnly)
      else if cfg.video_type = some "r2v" ∧ 0 < (0:Nat) then SubmitKind.referenceImages 0
      else SubmitKind.textOnly) = SubmitKind.textOnly := by
    simp
  have hsubmit : Ev.effect (.submit .textOnly)
      ∈ (video_after_validation env tok cfg 0 true).1 := by
    unfold video_after_validation
    dsimp only
    have hup : ¬(cfg.video_type = some "i2v" ∧ 0 < 0) := by simp
    have hr2v : ¬(cfg.video_type = some "r2v" ∧ 0 < 0) := by simp
    rw [if_neg hup, if_neg hr2v]
    dsimp only
    cases env.video_submit with
    | error e => simp [hkind]
    | ok ops => cases ops <;> simp [hkind]
    -- the submit effect is in `base`, present in every branch
  have hupfree : ∀ i j, Ev.effect (.uploadImage i j)
      ∉ (video_after_validation env tok cfg 0 true).1 :=
    fun i j => upload_not_in_after_validation_t2v env tok cfg true i j
  cases hr2 : (video_after_validation env tok cfg 0 true).2 with
  | none =>
      have hN : handle_generation env model n true =
          [Ev.chunk "generation task started", Ev.effect (.selectToken tok.id),
           Ev.chunk "initializing", Ev.effect (.acquireVideo tok.id)]
            ++ warnT2V :: ((video_after_validation env tok cfg 0 true).1
              ++ [Ev.effect (.releaseVideo tok.id),
                  Ev.effect (.recordUsage tok.id true),
                  Ev.effect (.recordSuccess tok.id)]) := by
        simp [handle_generation, handle_gen_try, inner_video, inner_video_try,
              hlook, hmedia, hvt, hn, hsel, hat, href, hproj, hacq, hr2]
      have h0 : handle_generation env model 0 true =
          [Ev.chunk "generation task started", Ev.effect (.selectToken tok.id),
           Ev.chunk "initializing", Ev.effect (.acquireVideo tok.id)]
            ++ ((video_after_validation env tok cfg 0 true).1
              ++ [Ev.effect (.releaseVideo tok.id),
                  Ev.effect (.recordUsage tok.id true),
                  Ev.effect (.recordSuccess tok.id)]) := by
        simp [handle_generation, handle_gen_try, inner_video, inner_video_try,
              hlook, hmedia, hvt, hsel, hat, href, hproj, hacq, hr2]
      refine ⟨?_, ?_, ?_, ?_⟩
      · rw [hN]; simp
      · intro i j
        rw [hN]
        simp [warnT2V, hupfree i j]
      · rw [hN]
        simp [hsubmit]
      · rw [hN, h0, List.erase_append_right _ (by simp [warnT2V]),
            List.erase_cons_head]
  | some e =>
      have hN : handle_generation env model n true =
          [Ev.chunk "generation task started", Ev.effect (.selectToken tok.id),
           Ev.chunk "initializing", Ev.effect (.acquireVideo tok.id)]
            ++ warnT2V :: ((video_after_validation env tok cfg 0 true).1
              ++ [Ev.effect (.releaseVideo tok.id),
                  Ev.chunk "generation failed line",
                  Ev.effect (if is429 e then .banFor429 tok.id
                             else .recordError tok.id),
                  Ev.response (.generationFailed e)]) := by
        simp [handle_generation, handle_gen_try, inner_video, inner_video_try,
              hlook, hmedia, hvt, hn, hsel, hat, href, hproj, hacq, hr2]
      have h0 : handle_generation env model 0 true =
          [Ev.chunk "generation task started", Ev.effect (.selectToken tok.id),
           Ev.chunk "initializing", Ev.effect (.acquireVideo tok.id)]
            ++ ((video_after_validation env tok cfg 0 true).1
              ++ [Ev.effect (.releaseVideo tok.id),
                  Ev.chunk "generation failed line",
                  Ev.effect (if is429 e then .banFor429 tok.id
                             else .recordError tok.id),
                  Ev.response (.generationFailed e)]) := by
        simp [handle_generation, handle_gen_try, inner_video, inner_video_try,
              hlook, hmedia, hvt, hsel, hat, href, hproj, hacq, hr2]
      refine ⟨?_, ?_, ?_, ?_⟩
      · rw [hN]; simp
      · intro i j
        rw [hN]
        cases his : is429 e <;> simp [warnT2V, his, hupfree i j]
      · rw [hN]
        simp [hsubmit]
      · rw [hN, h0, List.erase_append_right _ (by simp [warnT2V]),
            List.erase_cons_head]

/-- Witness for `c9_t2v_drops_images`: the t2v model
`veo_3_1_t2v_fast_portrait` invoked with 2 reference images. -/
theorem c9_t2v_drops_images_witness :
    let tok : Token :=
      { id := 4, is_active := true, image_enabled := true, video_enabled := true,
        use_count := 0, ban_reason := none, banned_at := none }
    let env : Env :=
      { select_result := some tok, at_valid := true, token_refetch := tok,
        project := .ok "p", image_acquire_ok := true, video_acquire_ok := true,
        upload := fun _ => .ok "m", image_gen := .ok none,
        video_submit := .ok ["op-1"], poll_obs := fun _ => .ok [],
        maxAttempts := 1, now := 5 }
    warnT2V ∈ handle_generation env "veo_3_1_t2v_fast_portrait" 2 true
    ∧ (∀ i j, Ev.effect (.uploadImage i j)
        ∉ handle_generation env "veo_3_1_t2v_fast_portrait" 2 true)
    ∧ Ev.effect (.submit .textOnly)
        ∈ handle_generation env "veo_3_1_t2v_fast_portrait" 2 true
    ∧ (handle_generation env "veo_3_1_t2v_fast_portrait" 2 true).erase warnT2V
        = handle_generation env "veo_3_1_t2v_fast_portrait" 0 true := by
  intro tok env
  exact c9_t2v_drops_images env "veo_3_1_t2v_fast_portrait" 2
    (t2vCfg "veo_3_1_t2v_fast_portrait" "VIDEO_ASPECT_RATIO_PORTRAIT") tok "p"
    (by decide) rfl rfl (by decide) rfl rfl rfl rfl rfl

end Flow2API
